import Mathlib

/-
  A model of src/ReconnectWebSocket.js: a reconnecting wrapper around a
  WebSocket transport.

  The wrapper is single-threaded and event-driven.  We model it as a state
  machine whose atomic steps are the callbacks the host event loop can run:
  public method calls (`open`, `close`, `refresh`, `send`), timer callbacks
  (the connection-stall timeout of line 104 and the reconnect timer of
  line 144), and events delivered by the currently wired transport
  (`onopen`, `onclose`, `onmessage`, `onerror`).

  JavaScript numbers are modelled as exact rationals; every configuration
  evaluated below (intervals 100 and 1000, decay 3/2, cap 300000) is also
  exact in binary floating point, so the rational computation agrees with
  the JavaScript one.

  The `ws` npm package delivers its close event asynchronously: calling
  `ws.close()` never runs `onclose` synchronously inside the call.  A call
  to `this.ws.close()` is therefore modelled as a mere request to the
  transport; the transport's close is a separate later step.
-/

/-- Connection states.  The code only ever assigns CONNECTING, OPEN and
CLOSED to `this.readyState`; CLOSING exists among the WebSocket constants
but is never stored. -/
inductive ReadyState where
  | CONNECTING
  | OPEN
  | CLOSING
  | CLOSED
deriving DecidableEq, BEq

/-- Events emitted to the listeners of the EventEmitter.  `opened b` models
the `open` event together with its `isReconnect` payload flag (line 122);
`message` and `error` pass the transport event through unchanged, so their
payload is not tracked. -/
inductive Ev where
  | connecting
  | opened (isReconnect : Bool)
  | close
  | message
  | error
deriving DecidableEq, BEq

/-- The instance state of `ReconnectWebSocket`.

The first block mirrors the settings merged in the constructor
(lines 13-47); all of them are constants of the instance, including
`reconnectAttempt`, which defaults to `false` and is never reassigned
anywhere in the class (the reassignment in `onopen`, line 121, is commented
out, and `this.open(this.reconnectAttempt)` at line 146 passes an argument
that the parameterless `open()` ignores).

The second block mirrors the mutable fields set up at lines 50-77.
`wsOwned` is the nullness of `this.ws`; `wsWired` records whether the four
handlers were attached to the current transport (they are not for a
transport abandoned by the early `return` at line 92).  `stallPending` and
`retryPending` record whether the connection-timeout timer (line 104)
resp. a reconnect timer (line 144) is currently scheduled.

`transportsConstructed` and `retryDelays` are ghost instrumentation: the
number of `new WebSocket(...)` evaluations (line 87) and the list of delays
passed to the reconnect `setTimeout` (line 147), in order. -/
structure RWS where
  reconnectAttempt : Bool
  maxReconnectAttempts : Option Nat
  reconnectInterval : ℚ
  reconnectDecay : ℚ
  maxReconnectInterval : ℚ
  reconnectAttempts : Nat
  readyState : ReadyState
  protocol : Option String
  wsOwned : Bool
  wsWired : Bool
  forcedClose : Bool
  timedOut : Bool
  stallPending : Bool
  retryPending : Bool
  transportsConstructed : Nat
  retryDelays : List ℚ
deriving DecidableEq

/-- Constructor state (lines 50-77), before `automaticOpen` is consulted.
`timedOut` starts false: its initialisation at line 78 is commented out, so
the field is `undefined`, which is falsy wherever the code tests it. -/
def init (ra : Bool) (mra : Option Nat) (ri rd mri : ℚ) : RWS :=
  { reconnectAttempt := ra
    maxReconnectAttempts := mra
    reconnectInterval := ri
    reconnectDecay := rd
    maxReconnectInterval := mri
    reconnectAttempts := 0
    readyState := ReadyState.CONNECTING
    protocol := none
    wsOwned := false
    wsWired := false
    forcedClose := false
    timedOut := false
    stallPending := false
    retryPending := false
    transportsConstructed := 0
    retryDelays := [] }

/-- The guard of line 91: `this.maxReconnectAttempts &&
this.reconnectAttempts > this.maxReconnectAttempts`.  In JavaScript both
`null` and `0` are falsy, so a limit of 0 disables the guard. -/
def maxAttemptsExceeded (s : RWS) : Bool :=
  match s.maxReconnectAttempts with
  | none => false
  | some m => decide (m ≠ 0) && decide (s.reconnectAttempts > m)

/-- `open()` (lines 86-165).  Line 87 constructs a new transport and stores
it in `this.ws` unconditionally, before any guard runs.  If
`this.reconnectAttempt` is set and the attempt limit is exceeded, the
method returns at line 92 with the fresh transport stored but neither the
stall timer armed nor any handler wired.  Otherwise, when
`this.reconnectAttempt` is not set, it emits `connecting` and resets
`this.reconnectAttempts` to 0 (lines 95-96).  It then arms the stall timer
(line 104) and wires the four handlers (lines 113-164). -/
def openStep (s : RWS) : RWS × List Ev :=
  let s1 : RWS := { s with
    wsOwned := true
    wsWired := false
    transportsConstructed := s.transportsConstructed + 1 }
  if s1.reconnectAttempt then
    if maxAttemptsExceeded s1 then
      (s1, [])
    else
      ({ s1 with stallPending := true, wsWired := true }, [])
  else
    ({ s1 with reconnectAttempts := 0, stallPending := true, wsWired := true },
     [Ev.connecting])

/-- `onopen` (lines 113-125): cancel the stall timer, record the negotiated
sub-protocol reported by the transport, set state OPEN, reset
`reconnectAttempts`, and emit `open` with `isReconnect = this.reconnectAttempt`. -/
def wsOpenStep (s : RWS) (p : String) : RWS × List Ev :=
  ({ s with
      stallPending := false
      protocol := some p
      readyState := ReadyState.OPEN
      reconnectAttempts := 0 },
   [Ev.opened s.reconnectAttempt])

/-- `onclose` (lines 127-149): cancel the stall timer and null `this.ws`.
If `forcedClose` is set: state CLOSED and emit `close`.  Otherwise: state
CONNECTING, emit `connecting`, emit `close` when `!this.reconnectAttempt &&
!this.timedOut`, then schedule the reconnect timer after
`nextTimeout > maxReconnectInterval ? maxReconnectInterval : nextTimeout`
where `nextTimeout = reconnectInterval * reconnectDecay ^ reconnectAttempts`.
Note the handler never clears `this.protocol`. -/
def wsCloseStep (s : RWS) : RWS × List Ev :=
  let s1 : RWS := { s with stallPending := false, wsOwned := false, wsWired := false }
  if s1.forcedClose then
    ({ s1 with readyState := ReadyState.CLOSED }, [Ev.close])
  else
    let nextTimeout : ℚ := s1.reconnectInterval * s1.reconnectDecay ^ s1.reconnectAttempts
    let delay : ℚ := if s1.maxReconnectInterval < nextTimeout then s1.maxReconnectInterval else nextTimeout
    ({ s1 with
        readyState := ReadyState.CONNECTING
        retryPending := true
        retryDelays := s1.retryDelays ++ [delay] },
     [Ev.connecting] ++
       (if ¬s1.reconnectAttempt ∧ ¬s1.timedOut then [Ev.close] else []))

/-- The reconnect timer callback (lines 144-146): increment
`reconnectAttempts` and call `open()` again.  The argument
`this.reconnectAttempt` passed at line 146 is ignored by the parameterless
`open()`. -/
def fireRetryStep (s : RWS) : RWS × List Ev :=
  openStep { s with retryPending := false, reconnectAttempts := s.reconnectAttempts + 1 }

/-- The stall-timeout callback (lines 104-111): set `timedOut`, request
`localWs.close()`, reset `timedOut` — all synchronously inside the one
callback.  Because the transport delivers its close event asynchronously,
`timedOut` is back to false by the time `onclose` runs; the net effect on
the instance is that `timedOut` ends false and a close was requested from
the transport (which reaches the wrapper as a later `wsClose` step). -/
def fireStallStep (s : RWS) : RWS × List Ev :=
  ({ s with stallPending := false, timedOut := false }, [])

/-- `close(code, reason)` (lines 188-197): set `forcedClose`, and if a
transport is owned, request its close (the close itself arrives as a later
transport close step). -/
def closeStep (s : RWS) : RWS × List Ev :=
  ({ s with forcedClose := true }, [])

/-- `refresh()` (lines 203-207): if a transport is owned, request its close;
otherwise do nothing.  The third component records whether a close request
was issued to the transport — the method's only effect. -/
def refresh (s : RWS) : RWS × List Ev × Bool :=
  if s.wsOwned then (s, [], true) else (s, [], false)

/-- The exact string thrown by `send` at line 180. -/
def invalidStateMsg : String := "INVALID_STATE_ERR : Pausing to reconnect websocket"

/-- `send(data)` (lines 173-181): if `this.ws` is non-null, forward the
payload unchanged to the transport and return the transport's result
(`tsend` stands for the owned transport's send); otherwise throw the
invalid-state string.  `this.ws` being non-null is `wsOwned`. -/
def send {α β : Type} (tsend : α → β) (s : RWS) (d : α) : RWS × Except String β :=
  if s.wsOwned then
    (s, Except.ok (tsend d))
  else
    (s, Except.error invalidStateMsg)

/-- The atomic steps the host event loop can run against the instance. -/
inductive Cmd where
  | callOpen
  | callClose
  | callRefresh
  | fireRetry
  | fireStall
  | wsOpen (p : String)
  | wsClose
  | wsMessage
  | wsError
deriving DecidableEq, BEq

/-- Which steps the event loop can actually run in a given state: a timer
callback only runs while that timer is scheduled, and a transport event is
only delivered to the wrapper while handlers are wired to the current
transport.  A direct `open()` call is modelled only when no transport is
owned and no reconnect timer is pending, which covers every call site in
the repository (the constructor's `automaticOpen` call and the reconnect
timer callback). -/
def enabled (s : RWS) : Cmd → Bool
  | Cmd.callOpen => !s.wsOwned && !s.retryPending
  | Cmd.callClose => true
  | Cmd.callRefresh => true
  | Cmd.fireRetry => s.retryPending
  | Cmd.fireStall => s.stallPending
  | Cmd.wsOpen _ => s.wsWired
  | Cmd.wsClose => s.wsWired
  | Cmd.wsMessage => s.wsWired
  | Cmd.wsError => s.wsWired

/-- One event-loop step.  `onmessage` (lines 151-156) and `onerror`
(lines 158-164) forward the transport event verbatim and change no state. -/
def step (s : RWS) : Cmd → RWS × List Ev
  | Cmd.callOpen => openStep s
  | Cmd.callClose => closeStep s
  | Cmd.callRefresh => ((refresh s).1, (refresh s).2.1)
  | Cmd.fireRetry => fireRetryStep s
  | Cmd.fireStall => fireStallStep s
  | Cmd.wsOpen p => wsOpenStep s p
  | Cmd.wsClose => wsCloseStep s
  | Cmd.wsMessage => (s, [Ev.message])
  | Cmd.wsError => (s, [Ev.error])

/-- Run a sequence of steps, collecting the emitted events in order. -/
def run (s : RWS) : List Cmd → RWS × List Ev
  | [] => (s, [])
  | c :: t => ((run (step s c).1 t).1, (step s c).2 ++ (run (step s c).1 t).2)

/-- A sequence of steps is valid when each step is enabled in the state it
runs from. -/
def validRun (s : RWS) : List Cmd → Bool
  | [] => true
  | c :: t => enabled s c && validRun (step s c).1 t

/-- Construction (lines 11-84): build the initial state and, when
`automaticOpen === true`, immediately call `open()` (lines 80-82). -/
def construct (ra : Bool) (mra : Option Nat) (ri rd mri : ℚ) (auto : Bool) :
    RWS × List Ev :=
  if auto then openStep (init ra mra ri rd mri) else (init ra mra ri rd mri, [])

/-- An instance built with all-default options (`automaticOpen: true`,
`reconnectAttempt: false`, `maxReconnectAttempts: null`,
`reconnectInterval: 1000`, `reconnectDecay: 1.5`,
`maxReconnectInterval: 300000`), right after the constructor returns. -/
def defaultStart : RWS := (construct false none 1000 (3 / 2) 300000 true).1

/-- An instance built with default options except `automaticOpen: false`:
no transport is owned yet. -/
def noWsState : RWS := (construct false none 1000 (3 / 2) 300000 false).1

/-! ## Frame lemmas about single steps -/

lemma openStep_keeps (s : RWS) :
    (openStep s).1.forcedClose = s.forcedClose ∧
    (openStep s).1.readyState = s.readyState ∧
    (openStep s).1.protocol = s.protocol ∧
    (openStep s).1.retryPending = s.retryPending ∧
    (openStep s).1.retryDelays = s.retryDelays := by
  simp only [openStep]
  split_ifs <;> exact ⟨rfl, rfl, rfl, rfl, rfl⟩

lemma refresh_fst (s : RWS) : (refresh s).1 = s := by
  simp only [refresh]
  split_ifs <;> rfl

/-- After a forced close with no reconnect timer pending, every enabled step
other than a direct `open()` call keeps `forcedClose` set, keeps the
reconnect timer unscheduled, and constructs no transport. -/
lemma stepKeepsDone (s : RWS) (c : Cmd) (he : enabled s c = true)
    (hc : c ≠ Cmd.callOpen) (hf : s.forcedClose = true)
    (hr : s.retryPending = false) :
    (step s c).1.forcedClose = true ∧ (step s c).1.retryPending = false ∧
    (step s c).1.transportsConstructed = s.transportsConstructed := by
  cases c with
  | callOpen => exact absurd rfl hc
  | callClose => exact ⟨rfl, hr, rfl⟩
  | callRefresh => rw [step, refresh_fst]; exact ⟨hf, hr, rfl⟩
  | fireRetry => simp only [enabled] at he; rw [hr] at he; exact absurd he (by simp)
  | fireStall => exact ⟨hf, hr, rfl⟩
  | wsOpen p => exact ⟨hf, hr, rfl⟩
  | wsClose => simp [step, wsCloseStep, hf, hr]
  | wsMessage => exact ⟨hf, hr, rfl⟩
  | wsError => exact ⟨hf, hr, rfl⟩

/-! ## C1 -/

/-- C1, counterexample.  The claim says that once `close()` has set
`forcedClose`, no new transport is ever constructed, even when a reconnect
retry timer was already scheduled before `close()` and fires after it.  On
the code this fails: start a default instance, let its transport close
(which schedules a retry), call `close()` — `forcedClose` is now true and
exactly one transport has ever been constructed — and then let the pending
retry timer fire: `open()` has no `forcedClose` check and constructs a
second transport. -/
theorem claim1_cex :
    validRun defaultStart [Cmd.wsClose, Cmd.callClose, Cmd.fireRetry] = true ∧
    (run defaultStart [Cmd.wsClose, Cmd.callClose]).1.forcedClose = true ∧
    (run defaultStart [Cmd.wsClose, Cmd.callClose]).1.transportsConstructed = 1 ∧
    (run defaultStart [Cmd.wsClose, Cmd.callClose, Cmd.fireRetry]).1.transportsConstructed = 2 := by
  exact ⟨by decide, by decide, by decide, by decide⟩

/-- C1, amended: once `forcedClose` is true, no new transport is
constructed by any further event-loop activity, provided no reconnect
retry timer is still pending at that point and the caller does not invoke
`open()` directly.  (A retry timer that was already scheduled before
`close()` still constructs a transport when it fires — see the
counterexample — because neither `open()` nor the retry callback checks
`forcedClose`.) -/
theorem claim1_amended (s : RWS) (t : List Cmd)
    (hv : validRun s t = true) (hno : Cmd.callOpen ∉ t)
    (hf : s.forcedClose = true) (hr : s.retryPending = false) :
    (run s t).1.transportsConstructed = s.transportsConstructed ∧
    (run s t).1.forcedClose = true ∧ (run s t).1.retryPending = false := by
  induction t generalizing s with
  | nil => exact ⟨rfl, hf, hr⟩
  | cons c t ih =>
      rw [validRun, Bool.and_eq_true] at hv
      have hc : c ≠ Cmd.callOpen := by
        intro h; exact hno (h ▸ List.mem_cons_self c t)
      obtain ⟨h1, h2, h3⟩ := stepKeepsDone s c hv.1 hc hf hr
      have hno2 : Cmd.callOpen ∉ t := fun h => hno (List.mem_cons_of_mem c h)
      obtain ⟨g1, g2, g3⟩ := ih (step s c).1 hv.2 hno2 h1 h2
      exact ⟨by rw [run]; exact g1.trans h3, by rw [run]; exact g2, by rw [run]; exact g3⟩

/-- C1, witness for the amended theorem at a concrete state: a default
instance whose caller calls `close()` while the first transport is live and
whose transport then closes is done; further `refresh()` and `close()`
calls construct nothing. -/
theorem claim1_amended_witness :
    (run (run defaultStart [Cmd.callClose, Cmd.wsClose]).1
        [Cmd.callRefresh, Cmd.callClose]).1.transportsConstructed =
      (run defaultStart [Cmd.callClose, Cmd.wsClose]).1.transportsConstructed ∧
    (run (run defaultStart [Cmd.callClose, Cmd.wsClose]).1
        [Cmd.callRefresh, Cmd.callClose]).1.forcedClose = true ∧
    (run (run defaultStart [Cmd.callClose, Cmd.wsClose]).1
        [Cmd.callRefresh, Cmd.callClose]).1.retryPending = false :=
  claim1_amended (run defaultStart [Cmd.callClose, Cmd.wsClose]).1
    [Cmd.callRefresh, Cmd.callClose]
    (by decide) (by simp) (by decide) (by decide)

/-! ## C2 -/

/-- C2 fails on the code.  With the spec's scenario — `automaticOpen: true`,
`reconnectInterval: 100`, `maxReconnectAttempts: 2`, a transport that always
closes immediately — the claim allows at most 3 transports (the fresh one
plus 2 reconnect attempts).  On the code the limit never takes effect: the
`reconnectAttempt` flag consulted at line 90 is never true, so every retry
runs the fresh-open branch, resets `reconnectAttempts` to 0 and constructs
a transport; after 4 fired retries 5 transports exist and a reconnect timer
is still pending.  (Moreover line 87 constructs the transport before the
guard of line 91 even runs, so even a triggered guard would not prevent the
construction.) -/
theorem claim2_limit_never_stops_retries :
    validRun (construct false (some 2) 100 (3 / 2) 300000 true).1
      [Cmd.wsClose, Cmd.fireRetry, Cmd.wsClose, Cmd.fireRetry,
       Cmd.wsClose, Cmd.fireRetry, Cmd.wsClose, Cmd.fireRetry] = true ∧
    (run (construct false (some 2) 100 (3 / 2) 300000 true).1
      [Cmd.wsClose, Cmd.fireRetry, Cmd.wsClose, Cmd.fireRetry,
       Cmd.wsClose, Cmd.fireRetry, Cmd.wsClose, Cmd.fireRetry]).1.transportsConstructed = 5 ∧
    (run (construct false (some 2) 100 (3 / 2) 300000 true).1
      [Cmd.wsClose, Cmd.fireRetry, Cmd.wsClose, Cmd.fireRetry,
       Cmd.wsClose, Cmd.fireRetry, Cmd.wsClose, Cmd.fireRetry]).1.retryPending = false := by
  exact ⟨by decide, by decide, by decide⟩

/-! ## C4 -/

/-- C4 fails on the code.  After two consecutive failed reconnect attempts
of a default instance with no successful open in between, the claim says
`reconnectAttempts` reads 2.  On the code it reads 0: the retry callback
increments the counter and calls `open()`, but `open()` takes the
fresh-open branch (the `reconnectAttempt` flag is never true) and resets
the counter to 0 at line 96, so it is reset on every open, not only on
successful or fresh opens. -/
theorem claim4_attempts_read_zero_not_k :
    validRun defaultStart
      [Cmd.wsClose, Cmd.fireRetry, Cmd.wsClose, Cmd.fireRetry, Cmd.wsClose] = true ∧
    (run defaultStart
      [Cmd.wsClose, Cmd.fireRetry, Cmd.wsClose, Cmd.fireRetry, Cmd.wsClose]).1.reconnectAttempts = 0 := by
  exact ⟨by decide, by decide⟩

/-! ## C5 -/

/-- C5 fails on the code.  One genuine disconnect of a default instance
followed by two failed reconnect attempts emits three `close` events, not
one: the guard at line 136 is `!this.reconnectAttempt && !this.timedOut`,
and `this.reconnectAttempt` is never true, so every unforced transport
close — including each retry attempt's close — re-emits `close`. -/
theorem claim5_close_emitted_every_cycle :
    validRun defaultStart
      [Cmd.wsClose, Cmd.fireRetry, Cmd.wsClose, Cmd.fireRetry, Cmd.wsClose] = true ∧
    (run defaultStart
      [Cmd.wsClose, Cmd.fireRetry, Cmd.wsClose, Cmd.fireRetry, Cmd.wsClose]).2.count Ev.close = 3 := by
  exact ⟨by decide, by decide⟩

/-! ## C6 -/

/-- C6 fails on the code.  When the transport opens successfully on the
retry after one failed attempt, the emitted `open` event carries
`isReconnect = false`, not true: the payload is `this.reconnectAttempt`
(line 123), which is never set to true anywhere in the class.  The full
event sequence of the run (after the `connecting` emitted during
construction) is: `connecting`, `close` from the failed attempt, then
`connecting` from the retry open and `opened false`. -/
theorem claim6_isReconnect_always_false :
    validRun defaultStart [Cmd.wsClose, Cmd.fireRetry, Cmd.wsOpen ("chat")] = true ∧
    (run defaultStart [Cmd.wsClose, Cmd.fireRetry, Cmd.wsOpen ("chat")]).2 =
      [Ev.connecting, Ev.close, Ev.connecting, Ev.opened false] := by
  exact ⟨by decide, by decide⟩

/-! ## C3 -/

/-- When the `reconnectAttempt` flag is false — which it always is unless the
caller passed `reconnectAttempt: true` as a constructor option — `open()`
takes the fresh-open branch: it emits `connecting`, resets the attempt
counter, arms the stall timer and wires the handlers. -/
lemma openStep_not_reconnect (s : RWS) (hra : s.reconnectAttempt = false) :
    (openStep s).1 = { s with wsOwned := true, wsWired := true, stallPending := true,
                              reconnectAttempts := 0,
                              transportsConstructed := s.transportsConstructed + 1 } ∧
    (openStep s).2 = [Ev.connecting] := by
  simp only [openStep]
  rw [if_neg (by simp [hra])]
  exact ⟨rfl, rfl⟩

/-- The forced branch of `onclose`. -/
lemma wsCloseStep_forced (s : RWS) (hf : s.forcedClose = true) :
    (wsCloseStep s).1 =
      { s with
          stallPending := false
          wsOwned := false
          wsWired := false
          readyState := ReadyState.CLOSED } ∧
    (wsCloseStep s).2 = [Ev.close] := by
  simp only [wsCloseStep]
  rw [if_pos (show ({ s with stallPending := false, wsOwned := false, wsWired := false } : RWS).forcedClose = true from hf)]
  exact ⟨rfl, rfl⟩

/-- The unforced branch of `onclose`. -/
lemma wsCloseStep_unforced (s : RWS) (hf : s.forcedClose = false) :
    (wsCloseStep s).1 =
      { s with
          stallPending := false
          wsOwned := false
          wsWired := false
          readyState := ReadyState.CONNECTING
          retryPending := true
          retryDelays := s.retryDelays ++
            [(if s.maxReconnectInterval <
                  s.reconnectInterval * s.reconnectDecay ^ s.reconnectAttempts then
                s.maxReconnectInterval
              else s.reconnectInterval * s.reconnectDecay ^ s.reconnectAttempts)] } ∧
    (wsCloseStep s).2 =
      [Ev.connecting] ++ (if ¬s.reconnectAttempt ∧ ¬s.timedOut then [Ev.close] else []) := by
  simp only [wsCloseStep]
  rw [if_neg (by simp [hf])]
  exact ⟨rfl, rfl⟩

/-- Invariant of a default-configured instance: the `reconnectAttempt` flag
is off, the intervals are the defaults, the attempt counter is 0 whenever a
transport is wired (every `open()` resets it), and therefore every reconnect
delay scheduled so far is exactly `reconnectInterval = 1000`. -/
def DelayInv (s : RWS) : Prop :=
  s.reconnectAttempt = false ∧ s.reconnectInterval = 1000 ∧
  s.maxReconnectInterval = 300000 ∧
  (s.wsWired = true → s.reconnectAttempts = 0) ∧
  (∀ d ∈ s.retryDelays, d = (1000 : ℚ))

lemma stepKeepsDelayInv (s : RWS) (c : Cmd) (he : enabled s c = true)
    (h : DelayInv s) : DelayInv (step s c).1 := by
  obtain ⟨hra, hri, hmi, hw, hd⟩ := h
  cases c with
  | callOpen =>
      have ho := (openStep_not_reconnect s hra).1
      show DelayInv (openStep s).1
      rw [ho]
      exact ⟨hra, hri, hmi, fun _ => rfl, hd⟩
  | callClose => exact ⟨hra, hri, hmi, hw, hd⟩
  | callRefresh =>
      have : (step s Cmd.callRefresh).1 = s := refresh_fst s
      rw [this]
      exact ⟨hra, hri, hmi, hw, hd⟩
  | fireRetry =>
      have ho := (openStep_not_reconnect
        { s with retryPending := false, reconnectAttempts := s.reconnectAttempts + 1 }
        hra).1
      show DelayInv (openStep _).1
      rw [ho]
      exact ⟨hra, hri, hmi, fun _ => rfl, hd⟩
  | fireStall => exact ⟨hra, hri, hmi, hw, hd⟩
  | wsOpen p => exact ⟨hra, hri, hmi, fun _ => rfl, hd⟩
  | wsClose =>
      have hwired : s.wsWired = true := he
      have h0 : s.reconnectAttempts = 0 := hw hwired
      by_cases hf : s.forcedClose = true
      · have hc := (wsCloseStep_forced s hf).1
        show DelayInv (wsCloseStep s).1
        rw [hc]
        exact ⟨hra, hri, hmi, fun h2 => Bool.noConfusion h2, hd⟩
      · have hf2 : s.forcedClose = false := by
          revert hf; cases s.forcedClose <;> simp
        have hc := (wsCloseStep_unforced s hf2).1
        show DelayInv (wsCloseStep s).1
        rw [hc]
        refine ⟨hra, hri, hmi, fun h2 => Bool.noConfusion h2, ?_⟩
        intro d hdm
        rcases List.mem_append.mp hdm with hmem | hmem
        · exact hd d hmem
        · have hde : d = _ := List.mem_singleton.mp hmem
          rw [hde, hri, hmi, h0, pow_zero, mul_one]
          rw [if_neg (by norm_num)]
  | wsMessage => exact ⟨hra, hri, hmi, hw, hd⟩
  | wsError => exact ⟨hra, hri, hmi, hw, hd⟩

/-- C3 fails on the code.  The claim says the delay before the n-th retry is
`min(reconnectInterval * reconnectDecay ^ n, maxReconnectInterval)` — with
defaults, 1000ms for retry 0 but about 7594ms for retry 5.  On the code, in
every modelled execution of a default instance, every delay ever passed to
the reconnect timer equals 1000: each retry's `open()` runs the fresh-open
branch (the `reconnectAttempt` flag consulted at line 90 is never true) and
resets `reconnectAttempts` to 0, so the exponent at line 143 is always 0
and the backoff never grows. -/
theorem claim3_default_backoff_never_grows (t : List Cmd)
    (hv : validRun defaultStart t = true) :
    ∀ d ∈ (run defaultStart t).1.retryDelays, d = (1000 : ℚ) := by
  have hrun : ∀ u s, validRun s u = true → DelayInv s → DelayInv (run s u).1 := by
    intro u
    induction u with
    | nil => intro s _ h; exact h
    | cons c u ih =>
        intro s hv2 h
        rw [validRun, Bool.and_eq_true] at hv2
        rw [run]
        exact ih (step s c).1 hv2.2 (stepKeepsDelayInv s c hv2.1 h)
  have hstart : DelayInv defaultStart :=
    ⟨rfl, rfl, rfl, fun _ => rfl,
     by rw [show defaultStart.retryDelays = [] from rfl]; simp⟩
  exact (hrun t defaultStart hv hstart).2.2.2.2

/-- C3, witness: six consecutive failed attempts of a default instance
schedule six reconnect delays, all equal to 1000 (the claim instead expects
1000, 1500, 2250, 3375, 5062.5, 7593.75). -/
theorem claim3_backoff_witness :
    (∀ d ∈ (run defaultStart
        [Cmd.wsClose, Cmd.fireRetry, Cmd.wsClose, Cmd.fireRetry, Cmd.wsClose,
         Cmd.fireRetry, Cmd.wsClose, Cmd.fireRetry, Cmd.wsClose, Cmd.fireRetry,
         Cmd.wsClose]).1.retryDelays, d = (1000 : ℚ)) ∧
    (run defaultStart
        [Cmd.wsClose, Cmd.fireRetry, Cmd.wsClose, Cmd.fireRetry, Cmd.wsClose,
         Cmd.fireRetry, Cmd.wsClose, Cmd.fireRetry, Cmd.wsClose, Cmd.fireRetry,
         Cmd.wsClose]).1.retryDelays.length = 6 :=
  ⟨claim3_default_backoff_never_grows _ (by decide), by decide⟩

/-! ## C7 -/

/-- C7: `send(data)` forwards the payload unchanged to the owned transport
and returns the transport's result whenever a transport is owned, and
fails synchronously with the invalid-state error whenever none is; in both
cases no instance field changes.  `tsend` stands for the owned transport's
own send, applied to the untouched payload. -/
theorem claim7_send_forward_or_invalid {α β : Type} (tsend : α → β)
    (s : RWS) (d : α) :
    (send tsend s d).1 = s ∧
    (s.wsOwned = true → (send tsend s d).2 = Except.ok (tsend d)) ∧
    (s.wsOwned = false → (send tsend s d).2 = Except.error invalidStateMsg) := by
  simp only [send]
  split_ifs with h <;> simp_all

/-- C7, witness: a default instance that owns its first transport forwards
a payload to the transport's send (here, the payload's length); the same
instance built with `automaticOpen: false` owns no transport and fails
with the invalid-state error. -/
theorem claim7_send_witness :
    (send String.length defaultStart ("ping")).1 = defaultStart ∧
    (send String.length defaultStart ("ping")).2 = Except.ok 4 ∧
    (send String.length noWsState ("ping")).2 = Except.error invalidStateMsg := by
  refine ⟨(claim7_send_forward_or_invalid String.length defaultStart ("ping")).1, ?_, ?_⟩
  · rw [(claim7_send_forward_or_invalid String.length defaultStart ("ping")).2.1 (by decide)]
    rfl
  · exact (claim7_send_forward_or_invalid String.length noWsState ("ping")).2.2 (by decide)

/-! ## C8 -/

/-- The states the instance cycles through while the caller never forces a
close: `readyState` is CONNECTING or OPEN. -/
def Cycling (s : RWS) : Prop :=
  s.readyState = ReadyState.CONNECTING ∨ s.readyState = ReadyState.OPEN

/-- A single step other than a `close()` call keeps `forcedClose` false and
keeps the state cycling between CONNECTING and OPEN. -/
lemma stepKeepsUnforced (s : RWS) (c : Cmd) (hc : c ≠ Cmd.callClose)
    (hf : s.forcedClose = false) (hs : Cycling s) :
    (step s c).1.forcedClose = false ∧ Cycling (step s c).1 := by
  cases c with
  | callOpen =>
      obtain ⟨h1, h2, -⟩ := openStep_keeps s
      show (openStep s).1.forcedClose = false ∧ Cycling (openStep s).1
      unfold Cycling
      rw [h1, h2]
      exact ⟨hf, hs⟩
  | callClose => exact absurd rfl hc
  | callRefresh =>
      have h : (step s Cmd.callRefresh).1 = s := refresh_fst s
      rw [h]; exact ⟨hf, hs⟩
  | fireRetry =>
      obtain ⟨h1, h2, -⟩ :=
        openStep_keeps { s with retryPending := false, reconnectAttempts := s.reconnectAttempts + 1 }
      show (fireRetryStep s).1.forcedClose = false ∧ Cycling (fireRetryStep s).1
      unfold Cycling fireRetryStep
      rw [h1, h2]
      exact ⟨hf, hs⟩
  | fireStall => exact ⟨hf, hs⟩
  | wsOpen p => exact ⟨hf, Or.inr rfl⟩
  | wsClose =>
      obtain ⟨h1, -⟩ := wsCloseStep_unforced s hf
      show (wsCloseStep s).1.forcedClose = false ∧ Cycling (wsCloseStep s).1
      rw [h1]
      exact ⟨hf, Or.inl rfl⟩
  | wsMessage => exact ⟨hf, hs⟩
  | wsError => exact ⟨hf, hs⟩

/-- C8: the instance reaches CLOSED only through a caller-initiated
`close()`.  First conjunct: along every modelled run containing no
`close()` call, an instance that starts unforced in CONNECTING or OPEN
stays unforced and keeps cycling between CONNECTING and OPEN — it never
reads CLOSED, and since every prefix of such a run is such a run, the
state is never CLOSED at any intermediate point either.  Second conjunct:
once `forcedClose` is true, the close handler sets CLOSED, emits exactly
one terminal `close`, schedules no reconnect timer and constructs no
transport. -/
theorem claim8_closed_only_via_forced_close :
    (∀ s t, validRun s t = true → Cmd.callClose ∉ t → s.forcedClose = false →
      Cycling s → (run s t).1.forcedClose = false ∧ Cycling (run s t).1) ∧
    (∀ s, s.forcedClose = true →
      (wsCloseStep s).1.readyState = ReadyState.CLOSED ∧
      (wsCloseStep s).2 = [Ev.close] ∧
      (wsCloseStep s).1.retryPending = s.retryPending ∧
      (wsCloseStep s).1.transportsConstructed = s.transportsConstructed) := by
  constructor
  · intro s t
    induction t generalizing s with
    | nil => intro _ _ hf hs; exact ⟨hf, hs⟩
    | cons c t ih =>
        intro hv hno hf hs
        rw [validRun, Bool.and_eq_true] at hv
        have hc : c ≠ Cmd.callClose := by
          intro h; exact hno (h ▸ List.mem_cons_self c t)
        obtain ⟨h1, h2⟩ := stepKeepsUnforced s c hc hf hs
        have hno2 : Cmd.callClose ∉ t := fun h => hno (List.mem_cons_of_mem c h)
        obtain ⟨g1, g2⟩ := ih (step s c).1 hv.2 hno2 h1 h2
        rw [run]
        exact ⟨g1, g2⟩
  · intro s hf
    obtain ⟨h1, h2⟩ := wsCloseStep_forced s hf
    rw [h1, h2]
    exact ⟨rfl, rfl, rfl, rfl⟩

/-- C8, witness: a default instance whose transport fails once, retries and
then opens never reads CLOSED; and the close handler of an instance whose
caller has called `close()` while the transport was live reads CLOSED and
emits the single terminal `close`. -/
theorem claim8_witness :
    ((run defaultStart [Cmd.wsClose, Cmd.fireRetry, Cmd.wsOpen ("p")]).1.forcedClose = false ∧
      Cycling (run defaultStart [Cmd.wsClose, Cmd.fireRetry, Cmd.wsOpen ("p")]).1) ∧
    ((wsCloseStep (closeStep defaultStart).1).1.readyState = ReadyState.CLOSED ∧
      (wsCloseStep (closeStep defaultStart).1).2 = [Ev.close] ∧
      (wsCloseStep (closeStep defaultStart).1).1.retryPending = (closeStep defaultStart).1.retryPending ∧
      (wsCloseStep (closeStep defaultStart).1).1.transportsConstructed = (closeStep defaultStart).1.transportsConstructed) :=
  ⟨claim8_closed_only_via_forced_close.1 defaultStart
      [Cmd.wsClose, Cmd.fireRetry, Cmd.wsOpen ("p")]
      (by decide) (by simp) (by decide) (Or.inl (by decide)),
   claim8_closed_only_via_forced_close.2 (closeStep defaultStart).1 (by decide)⟩

/-! ## C9 -/

/-- C9, counterexample.  The claim says the negotiated sub-protocol is not
left readable as a stale non-null value after the transport closes and
before the next open.  On the code it is: open a default instance's
transport with negotiated protocol "chat", then let the transport close.
The state is back to CONNECTING (not OPEN), yet `this.protocol` still
reads "chat" — the close handler never clears it (lines 127-149). -/
theorem claim9_cex :
    validRun defaultStart [Cmd.wsOpen ("chat"), Cmd.wsClose] = true ∧
    (run defaultStart [Cmd.wsOpen ("chat"), Cmd.wsClose]).1.readyState = ReadyState.CONNECTING ∧
    (run defaultStart [Cmd.wsOpen ("chat"), Cmd.wsClose]).1.protocol = some ("chat") := by
  exact ⟨by decide, by decide, by decide⟩

/-- Every step other than a transport `onopen` leaves `this.protocol`
untouched. -/
lemma stepKeepsProtocol (s : RWS) (c : Cmd) (hc : ∀ p, c ≠ Cmd.wsOpen p) :
    (step s c).1.protocol = s.protocol := by
  cases c with
  | callOpen => exact (openStep_keeps s).2.2.1
  | callClose => rfl
  | callRefresh => rw [show (step s Cmd.callRefresh).1 = (refresh s).1 from rfl, refresh_fst]
  | fireRetry =>
      exact (openStep_keeps
        { s with retryPending := false, reconnectAttempts := s.reconnectAttempts + 1 }).2.2.1
  | fireStall => rfl
  | wsOpen p => exact absurd rfl (hc p)
  | wsClose =>
      by_cases hf : s.forcedClose = true
      · rw [show (step s Cmd.wsClose).1 = (wsCloseStep s).1 from rfl, (wsCloseStep_forced s hf).1]
      · have hf2 : s.forcedClose = false := by
          revert hf; cases s.forcedClose <;> simp
        rw [show (step s Cmd.wsClose).1 = (wsCloseStep s).1 from rfl, (wsCloseStep_unforced s hf2).1]
  | wsMessage => rfl
  | wsError => rfl

/-- C9, amended: `this.protocol` is null at construction and stays null
until the first transport `onopen`; each `onopen` sets it to the value the
transport negotiated; the close handler never clears it, so after a close
the last negotiated value remains readable (stale) until the next open
overwrites it. -/
theorem claim9_amended_protocol_lifecycle :
    (∀ ra mra ri rd mri auto, (construct ra mra ri rd mri auto).1.protocol = none) ∧
    (∀ s t, (∀ p, Cmd.wsOpen p ∉ t) → s.protocol = none →
      (run s t).1.protocol = none) ∧
    (∀ s p, (wsOpenStep s p).1.protocol = some p) ∧
    (∀ s, (wsCloseStep s).1.protocol = s.protocol) := by
  refine ⟨?_, ?_, fun s p => rfl, ?_⟩
  · intro ra mra ri rd mri auto
    cases auto with
    | true => exact ((openStep_keeps (init ra mra ri rd mri)).2.2.1).trans rfl
    | false => rfl
  · intro s t
    induction t generalizing s with
    | nil => intro _ h; exact h
    | cons c t ih =>
        intro hno hp
        have hc : ∀ p, c ≠ Cmd.wsOpen p := by
          intro p h; exact hno p (h ▸ List.mem_cons_self c t)
        have hno2 : ∀ p, Cmd.wsOpen p ∉ t :=
          fun p h => hno p (List.mem_cons_of_mem c h)
        rw [run]
        exact ih (step s c).1 hno2 ((stepKeepsProtocol s c hc).trans hp)
  · intro s
    by_cases hf : s.forcedClose = true
    · rw [(wsCloseStep_forced s hf).1]
    · have hf2 : s.forcedClose = false := by
        revert hf; cases s.forcedClose <;> simp
      rw [(wsCloseStep_unforced s hf2).1]

/-- C9, witness for the amended theorem at concrete inputs: a default
instance still reads a null protocol after its first transport fails and a
retry starts; the handler of a transport open sets it; the close handler
keeps it. -/
theorem claim9_amended_witness :
    (construct false none 1000 (3 / 2) 300000 true).1.protocol = none ∧
    (run defaultStart [Cmd.wsClose, Cmd.fireRetry]).1.protocol = none ∧
    (wsOpenStep defaultStart ("chat")).1.protocol = some ("chat") ∧
    (wsCloseStep (wsOpenStep defaultStart ("chat")).1).1.protocol =
      (wsOpenStep defaultStart ("chat")).1.protocol :=
  ⟨claim9_amended_protocol_lifecycle.1 false none 1000 (3 / 2) 300000 true,
   claim9_amended_protocol_lifecycle.2.1 defaultStart [Cmd.wsClose, Cmd.fireRetry]
     (by intro p; simp) (by decide),
   claim9_amended_protocol_lifecycle.2.2.1 defaultStart ("chat"),
   claim9_amended_protocol_lifecycle.2.2.2 (wsOpenStep defaultStart ("chat")).1⟩

/-! ## C10 -/

/-- C10: calling `refresh()` while no transport is owned is a complete
no-op: the state — every instance field — is returned unchanged, no event
is emitted, and no close request is issued to any transport (the third
component of `refresh`). -/
theorem claim10_refresh_noop (s : RWS) (h : s.wsOwned = false) :
    refresh s = (s, [], false) := by
  simp only [refresh]
  rw [if_neg (by simp [h])]

/-- C10, witness: refreshing an instance built with `automaticOpen: false`
(no transport owned) changes nothing. -/
theorem claim10_refresh_witness : refresh noWsState = (noWsState, [], false) :=
  claim10_refresh_noop noWsState (by decide)
